import Mathlib

/-!
Shallow embedding of `tools/ci/python_packages/ttfw_idf/__init__.py`.

The module under study manipulates ordinary Python values: `None`, strings
and lists of strings (chip-name tokens), so we embed those three shapes as
an inductive `PyVal`.  Python exceptions relevant to the module are embedded
as an error type `PyErr` and fallible code returns `Except PyErr _`.
Floating point numbers occur only as parsed threshold constants and measured
values that are *compared* (never combined arithmetically), so they are
embedded as rationals, on which the order coincides with the IEEE order of
the represented values.  Character-level operations (`str.upper`, the `\d`
regex class, `\s`) are modelled on their ASCII behaviour, which is the whole
domain exercised by this module (chip names and C header text).
-/

set_option autoImplicit false

namespace TtfwIdf

/-- Embedding of the Python values this module passes around: `None`,
a string, or a list of strings. -/
inductive PyVal where
  | none
  | str (s : String)
  | list (l : List String)
deriving DecidableEq

/-- Embedding of the Python exceptions raised (or caught) by the module. -/
inductive PyErr where
  | typeError (msg : String)
  | valueError (msg : String)
  | assertionError (msg : String)
deriving DecidableEq

instance {ε α : Type} [DecidableEq ε] [DecidableEq α] : DecidableEq (Except ε α) := fun a b =>
  match a, b with
  | Except.error e, Except.error f =>
    if h : e = f then isTrue (by rw [h]) else isFalse (fun hh => by injection hh; contradiction)
  | Except.error _, Except.ok _ => isFalse (fun hh => by cases hh)
  | Except.ok _, Except.error _ => isFalse (fun hh => by cases hh)
  | Except.ok v, Except.ok w =>
    if h : v = w then isTrue (by rw [h]) else isFalse (fun hh => by injection hh; contradiction)

/-- ASCII behaviour of Python `str.upper` on a single character:
lowercase letters a–z map to A–Z, everything else is unchanged. -/
def pyUpperChar (c : Char) : Char :=
  if h : 97 ≤ c.toNat ∧ c.toNat ≤ 122 then
    Char.ofNatAux (c.toNat - 32) (Or.inl (by omega))
  else c

/-- Python `str.upper`, characterwise on the string's characters. -/
def pyUpper (s : String) : String :=
  String.mk (s.data.map pyUpperChar)

/-- Python truthiness of the embedded values: `None`, `""` and `[]`
are falsy, everything else truthy. -/
def pyFalsy : PyVal → Bool
  | PyVal.none => true
  | PyVal.str s => s.data.isEmpty
  | PyVal.list l => l.isEmpty

/-- Embedding of `upper_list` (source lines 40–47):

    def upper_list(text):
        if not text:
            return text
        if isinstance(text, string_type):
            res = text.upper()
        else:
            res = [item.upper() for item in text]
        return res
-/
def upper_list (text : PyVal) : PyVal :=
  if pyFalsy text then text
  else
    match text with
    | PyVal.str s => PyVal.str (pyUpper s)
    | PyVal.list l => PyVal.list (l.map pyUpper)
    | PyVal.none => PyVal.none   -- unreachable: `None` is falsy

/-- Iterating a Python string yields its characters as one-character
strings; this is the element shape `set("ESP32")` contains. -/
def pyStrOfChar (c : Char) : String := String.mk [c]

/-- Embedding of the Python builtin `set(x)` on the embedded values:
`set(None)` raises `TypeError`, `set` of a string is the set of its
one-character substrings, `set` of a list is the set of its elements. -/
def pySet : PyVal → Except PyErr (Finset String)
  | PyVal.none => Except.error (PyErr.typeError "NoneType object is not iterable")
  | PyVal.str s => Except.ok (s.data.map pyStrOfChar).toFinset
  | PyVal.list l => Except.ok l.toFinset

/-- Python `str(x)` for the embedded values, as used by `"{}.{}".format`:
a string is inserted as-is, a list prints as its `repr`, `None` as "None". -/
def pyFormat : PyVal → String
  | PyVal.none => "None"
  | PyVal.str s => s
  | PyVal.list l =>
      "[" ++ String.intercalate ", " (l.map (fun x => "'" ++ x ++ "'")) ++ "]"

/-- Embedding of `format_case_id` (source lines 30–31):

    def format_case_id(chip, case_name):
        return "{}.{}".format(chip, case_name)
-/
def format_case_id (chip : PyVal) (case_name : String) : String :=
  pyFormat chip ++ "." ++ case_name

/-- The keyword arguments a registration decorator is invoked with.
`Option.none` in `target`/`ci_target` means the keyword was omitted
(distinct from being explicitly bound to Python `None`, which is
`Option.some PyVal.none`); `others` carries all remaining keyword
arguments, which the validator passes through untouched. -/
structure Kwargs where
  target : Option PyVal
  ci_target : Option PyVal
  others : List (String × PyVal)
deriving DecidableEq

/-- Embedding of the `ci_target_check` wrapper body (source lines 50–60):

    def wrapper(**kwargs):
        target = upper_list(kwargs.get('target', []))
        ci_target = upper_list(kwargs.get('ci_target', []))
        if not set(ci_target).issubset(set(target)):
            raise ValueError('ci_target must be a subset of target')
        return func(**kwargs)

On success it forwards the original kwargs (returned here so theorems can
state that they are unmodified).  `set(ci_target)` is evaluated before
`set(target)`, as in the source. -/
def ci_target_check (kwargs : Kwargs) : Except PyErr Kwargs :=
  let target := upper_list (kwargs.target.getD (PyVal.list []))
  let ci_target := upper_list (kwargs.ci_target.getD (PyVal.list []))
  match pySet ci_target with
  | Except.error e => Except.error e
  | Except.ok cs =>
    match pySet target with
    | Except.error e => Except.error e
    | Except.ok ts =>
      if ¬ cs ⊆ ts then
        Except.error (PyErr.valueError "ci_target must be a subset of target")
      else
        Except.ok kwargs

/-- The slice of a registered test function's `case_info` mapping that this
module reads or writes: the "name" entry set by the framework and the "ID"
entry written by the decorators. -/
structure CaseInfo where
  name : String
  id : Option String
deriving DecidableEq

/-- Modelled from the spec: the external framework registration API
`TinyFW.test_method` (the repository code for it is not under `src/`).
Per the spec it accepts the metadata bundle and returns a decorator that,
applied to a user function, yields a registered function whose metadata
includes at least a "name" field and a mutable `case_info` mapping.  The
metadata bundle does not influence the two `case_info` fields modelled
here, so the model takes only the case name the framework assigns. -/
def TinyFW_test_method (case_name : String) : CaseInfo :=
  { name := case_name, id := Option.none }

/-- Embedding of `idf_example_test` (source lines 63–89): validation by the
`ci_target_check` wrapper, then the inner `test` stage

    test_func = original_method(func)
    test_func.case_info["ID"] = format_case_id(target, test_func.case_info["name"])

Note the stamping uses the `target` parameter as originally passed (default
"ESP32"), not its `upper_list`-normalized form.  In the source the two
stages are curried (validation runs when the decorator factory is called,
stamping when the returned decorator is applied); the model sequences them,
which preserves the observable outcome. -/
def idf_example_test (kwargs : Kwargs) (case_name : String) : Except PyErr CaseInfo :=
  match ci_target_check kwargs with
  | Except.error e => Except.error e
  | Except.ok kw =>
    let target := kw.target.getD (PyVal.str "ESP32")
    let test_func := TinyFW_test_method case_name
    Except.ok { test_func with id := some (format_case_id target test_func.name) }

/-- Embedding of `idf_unit_test` (source lines 92–117); its body is
identical to `idf_example_test` in the modelled fields (the variants differ
only in defaults for metadata the framework consumes opaquely). -/
def idf_unit_test (kwargs : Kwargs) (case_name : String) : Except PyErr CaseInfo :=
  match ci_target_check kwargs with
  | Except.error e => Except.error e
  | Except.ok kw =>
    let target := kw.target.getD (PyVal.str "ESP32")
    let test_func := TinyFW_test_method case_name
    Except.ok { test_func with id := some (format_case_id target test_func.name) }

/-- Embedding of `idf_custom_test` (source lines 120–147); see
`idf_unit_test` for why the modelled body coincides. -/
def idf_custom_test (kwargs : Kwargs) (case_name : String) : Except PyErr CaseInfo :=
  match ci_target_check kwargs with
  | Except.error e => Except.error e
  | Except.ok kw =>
    let target := kw.target.getD (PyVal.str "ESP32")
    let test_func := TinyFW_test_method case_name
    Except.ok { test_func with id := some (format_case_id target test_func.name) }

/-- Comparison operator of a threshold record, as captured by the regex
group `(MIN|MAX)`. -/
inductive Op where
  | MIN
  | MAX
deriving DecidableEq

/-- ASCII behaviour of the Python regex class `\s`. -/
def pyIsSpace (c : Char) : Bool :=
  c = ' ' ∨ c = '\t' ∨ c = '\n' ∨ c = '\r' ∨ c = '\x0b' ∨ c = '\x0c'

/-- Match a literal character sequence at the head of the input, returning
the remainder on success. -/
def dropLit : List Char → List Char → Option (List Char)
  | [], cs => some cs
  | _ :: _, [] => Option.none
  | p :: ps, c :: cs => if c = p then dropLit ps cs else Option.none

/-- Match `\s+` at the head of the input (greedy; the pattern continues
with a non-space character in every use, so greediness never needs to
backtrack). -/
def matchSpaces1 (cs : List Char) : Option (List Char) :=
  match cs with
  | [] => Option.none
  | c :: rest => if pyIsSpace c then some (rest.dropWhile pyIsSpace) else Option.none

/-- Match the capture group `([\d.]+)` at the head of the input (greedy),
returning the captured text. -/
def takeNum1 (cs : List Char) : Option String :=
  let t := cs.takeWhile (fun c => c.isDigit || c = '.')
  if t.isEmpty then Option.none else some (String.mk t)

/-- Attempt of the pattern
`#define\s+IDF_PERFORMANCE_(MIN|MAX)_{item.upper()}\s+([\d.]+)`
anchored at the head of the input, yielding the two capture groups.
The alternation needs no backtracking: "MIN" and "MAX" cannot both match
at one position, and each `\s+`/`[\d.]+` is followed by a character
outside its class.  As in the source, `item.upper()` is interpolated
literally (items are plain identifiers, free of regex metacharacters). -/
def matchPerfAt (item : String) (cs : List Char) : Option (Op × String) := do
  let cs ← dropLit "#define".data cs
  let cs ← matchSpaces1 cs
  let cs ← dropLit "IDF_PERFORMANCE_".data cs
  let (op, cs) ←
    match dropLit "MIN".data cs with
    | some r => some (Op.MIN, r)
    | Option.none =>
      match dropLit "MAX".data cs with
      | some r => some (Op.MAX, r)
      | Option.none => Option.none
  let cs ← dropLit ('_' :: (pyUpper item).data) cs
  let cs ← matchSpaces1 cs
  let num ← takeNum1 cs
  return (op, num)

/-- Leftmost-match scan over all start positions, as `re.search` does. -/
def searchPerf (item : String) : List Char → Option (Op × String)
  | [] => matchPerfAt item []
  | c :: rest =>
    match matchPerfAt item (c :: rest) with
    | some r => some r
    | Option.none => searchPerf item rest

/-- Embedding of the `re.search` call in `_find_perf_item` (source line
177) on the full text of a threshold file. -/
def re_search_perf (item data : String) : Option (Op × String) :=
  searchPerf item data.data

/-- Numeric value of a digit string (most significant first). -/
def digitsVal (cs : List Char) : ℕ :=
  cs.foldl (fun a c => 10 * a + (c.toNat - 48)) 0

/-- Embedding of the Python builtin `float` on the strings the
`([\d.]+)` capture can produce: defined iff the text has at least one
digit and at most one dot, in which case it denotes the obvious decimal
value; otherwise `float` raises `ValueError` (modelled as `Option.none`). -/
def pyFloat (s : String) : Option ℚ :=
  let cs := s.data
  if cs.all (fun c => c.isDigit || c = '.') ∧ cs.any (fun c => c.isDigit) ∧
      cs.count '.' ≤ 1 then
    let intPart := cs.takeWhile (fun c => c ≠ '.')
    let fracPart := (cs.dropWhile (fun c => c ≠ '.')).drop 1
    some ((digitsVal intPart : ℚ) + (digitsVal fracPart : ℚ) / (10 : ℚ) ^ fracPart.length)
  else Option.none

/-- Embedding of `_check_perf` (source lines 180–187).  `item` and `value`
are the enclosing `check_performance` locals it closes over; `op` and
`standard_value` are its parameters.  The `else` branch is `MIN`, the only
other value the regex group can produce.

    def _check_perf(op, standard_value):
        if op == 'MAX':
            ret = value <= standard_value
        else:
            ret = value >= standard_value
        if not ret:
            raise AssertionError(...)
-/
def check_perf (item : String) (value standard_value : ℚ) (op : Op) : Except PyErr Unit :=
  let ret : Bool :=
    match op with
    | Op.MAX => decide (value ≤ standard_value)
    | Op.MIN => decide (value ≥ standard_value)
  if ret then Except.ok ()
  else
    Except.error (PyErr.assertionError
      ("[Performance] " ++ item ++ " value is " ++ toString value ++
        ", doesn't meet pass standard " ++ toString standard_value))

/-- Embedding of the `check_performance` loop (source lines 189–202).
`performance_files` is the candidate list in source order — the
target-specific file first, then the generic one; an entry is
`Option.none` when opening the file raises `IOError` (missing/unreadable)
and `some data` gives the file's full text.  A failed regex search makes
`match.group(1)` raise `AttributeError`; both exceptions are caught by the
loop's `except` and skip to the next candidate.  A `ValueError` from
`float` is not caught and propagates.

Crucially, the loop statement `op, value = _find_perf_item(performance_file)`
rebinds the local `value` — the measured value — to the parsed threshold
before `_check_perf(op, value)` runs, so `_check_perf` receives the
threshold both through its `standard_value` parameter and through the
closed-over `value`: hence `check_perf item std std op` below.  After a
successful check the source `break`s, so the recursion stops. -/
def check_performance (item : String) (value : ℚ)
    (performance_files : List (Option String)) : Except PyErr Unit :=
  match performance_files with
  | [] => Except.ok ()
  | file :: rest =>
    match file with
    | Option.none => check_performance item value rest
    | some data =>
      match re_search_perf item data with
      | Option.none => check_performance item value rest
      | some (op, numstr) =>
        match pyFloat numstr with
        | Option.none =>
          Except.error (PyErr.valueError "could not convert string to float")
        | some std => check_perf item std std op

/-! ## Helper lemmas -/

theorem pyUpperChar_of_not_lower (d : Char) (hd : ¬ (97 ≤ d.toNat ∧ d.toNat ≤ 122)) :
    pyUpperChar d = d := by
  unfold pyUpperChar
  exact dif_neg hd

theorem pyUpperChar_toNat_of_lower (c : Char) (h : 97 ≤ c.toNat ∧ c.toNat ≤ 122) :
    (pyUpperChar c).toNat = c.toNat - 32 := by
  unfold pyUpperChar
  rw [dif_pos h]
  rfl

theorem pyUpperChar_idem (c : Char) : pyUpperChar (pyUpperChar c) = pyUpperChar c := by
  by_cases h : 97 ≤ c.toNat ∧ c.toNat ≤ 122
  · have h2 := pyUpperChar_toNat_of_lower c h
    exact pyUpperChar_of_not_lower _ (by omega)
  · rw [pyUpperChar_of_not_lower c h, pyUpperChar_of_not_lower c h]

theorem map_pyUpperChar_idem (l : List Char) :
    (l.map pyUpperChar).map pyUpperChar = l.map pyUpperChar := by
  induction l with
  | nil => rfl
  | cons a l ih => simp [ih, pyUpperChar_idem]

theorem pyUpper_idem (s : String) : pyUpper (pyUpper s) = pyUpper s := by
  unfold pyUpper
  exact congrArg String.mk (map_pyUpperChar_idem s.data)

theorem upper_list_str (s : String) : upper_list (PyVal.str s) = PyVal.str (pyUpper s) := by
  obtain ⟨data⟩ := s
  cases data with
  | nil => rfl
  | cons c cs => rfl

theorem upper_list_list (l : List String) :
    upper_list (PyVal.list l) = PyVal.list (l.map pyUpper) := by
  cases l with
  | nil => rfl
  | cons a l => rfl

theorem map_pyUpper_idem (l : List String) :
    (l.map pyUpper).map pyUpper = l.map pyUpper := by
  induction l with
  | nil => rfl
  | cons a l ih => simp [ih, pyUpper_idem]

/-- `_check_perf` invoked with the same number as measured value and
standard can never fail: both `MAX` (`std ≤ std`) and `MIN` (`std ≥ std`)
hold reflexively.  This is the situation `check_performance` always
produces, since its loop rebinds `value` to the parsed threshold. -/
theorem check_perf_self (item : String) (std : ℚ) (op : Op) :
    check_perf item std std op = Except.ok () := by
  cases op <;> simp [check_perf]

/-- A readable candidate whose text matches (with a parseable number)
makes the loop check-and-break, returning normally whatever follows. -/
theorem check_performance_found (item : String) (value : ℚ) (data : String)
    (rest : List (Option String)) (op : Op) (num : String) (std : ℚ)
    (h1 : re_search_perf item data = some (op, num)) (h2 : pyFloat num = some std) :
    check_performance item value (some data :: rest) = Except.ok () := by
  simp only [check_performance, h1, h2, check_perf_self]

/-- The source's `check_performance` can never surface an
`AssertionError`: every found record leads to `check_perf` comparing the
threshold with itself. -/
theorem check_performance_never_asserts (item : String) (value : ℚ)
    (files : List (Option String)) (msg : String) :
    check_performance item value files ≠ Except.error (PyErr.assertionError msg) := by
  induction files with
  | nil => simp [check_performance]
  | cons f rest ih =>
    cases f with
    | none => simpa only [check_performance] using ih
    | some data =>
      simp only [check_performance]
      cases hr : re_search_perf item data with
      | none => exact ih
      | some r =>
        obtain ⟨op, num⟩ := r
        cases hf : pyFloat num with
        | none => simp [hf]
        | some std => simp [hf, check_perf_self]

/-- Zeta-inlined equation of `ci_target_check`, convenient for rewriting. -/
theorem ci_target_check_eq (kw : Kwargs) :
    ci_target_check kw =
      match pySet (upper_list (kw.ci_target.getD (PyVal.list []))) with
      | Except.error e => Except.error e
      | Except.ok cs =>
        match pySet (upper_list (kw.target.getD (PyVal.list []))) with
        | Except.error e => Except.error e
        | Except.ok ts =>
          if ¬ cs ⊆ ts then
            Except.error (PyErr.valueError "ci_target must be a subset of target")
          else Except.ok kw := rfl

/-- On success the validator forwards exactly the kwargs it was given. -/
theorem ci_target_check_ok (kw kw2 : Kwargs) (h : ci_target_check kw = Except.ok kw2) :
    kw2 = kw := by
  rw [ci_target_check_eq] at h
  split at h
  · exact absurd h (by simp)
  · split at h
    · exact absurd h (by simp)
    · split at h
      · exact absurd h (by simp)
      · injection h with h'
        exact h'.symm

/-! ## Claim theorems -/

/-- C1: evaluation of the code at the claim's failing input.  With the
target-specific threshold file unreadable, the generic file defining
`#define IDF_PERFORMANCE_MAX_TEST 100.0`, and measured value 100.1, the
claim demands an assertion-style error naming the metric, 100.1 and
100.0; the code instead returns normally: the loop statement
`op, value = _find_perf_item(...)` rebinds the measured value to the
parsed threshold, so `_check_perf` compares 100.0 with 100.0. -/
theorem check_performance_violation_returns_ok :
    check_performance "TEST" (100.1 : ℚ)
      [Option.none, some "#define IDF_PERFORMANCE_MAX_TEST 100.0"] = Except.ok () := by
  have h1 : re_search_perf "TEST" "#define IDF_PERFORMANCE_MAX_TEST 100.0" =
      some (Op.MAX, "100.0") := by decide
  obtain ⟨q, hq⟩ : ∃ q, pyFloat "100.0" = some q := ⟨_, rfl⟩
  show check_performance "TEST" (100.1 : ℚ)
      [some "#define IDF_PERFORMANCE_MAX_TEST 100.0"] = Except.ok ()
  exact check_performance_found "TEST" _ _ [] Op.MAX "100.0" q h1 hq

/-- C2: evaluation of the code at the claim's failing input.  The claim
(and the decorators' docstrings, which admit a string `ci_target`) demand
that `target=["esp32","esp32s2"], ci_target="esp32"` registers
successfully; the code instead raises the subset `ValueError`, because
`set("ESP32")` is the set of the five characters of the string, which is
not a subset of the two-element target set. -/
theorem idf_example_test_string_ci_target_raises :
    idf_example_test
      { target := some (PyVal.list ["esp32", "esp32s2"]),
        ci_target := some (PyVal.str "esp32"), others := [] } "test_example" =
      Except.error (PyErr.valueError "ci_target must be a subset of target") := rfl

/-- C3: whenever both normalized inputs can be made into sets, the
validator raises the configuration `ValueError` exactly when the
CI-target set is not a subset of the target set, and otherwise forwards
the original keyword arguments unmodified (the missing-keyword default
being the empty list on either side). -/
theorem ci_target_check_subset_iff (kw : Kwargs) (cs ts : Finset String)
    (hc : pySet (upper_list (kw.ci_target.getD (PyVal.list []))) = Except.ok cs)
    (ht : pySet (upper_list (kw.target.getD (PyVal.list []))) = Except.ok ts) :
    (¬ cs ⊆ ts →
      ci_target_check kw = Except.error (PyErr.valueError "ci_target must be a subset of target")) ∧
    (cs ⊆ ts → ci_target_check kw = Except.ok kw) := by
  rw [ci_target_check_eq, hc, ht]
  constructor <;> intro h <;> simp [h]

/-- Witness for C3 at a concrete input: declared targets esp32 and
esp32s2 with CI target list containing just esp32 pass the check and the
kwargs are forwarded unchanged. -/
theorem ci_target_check_subset_iff_witness :
    ci_target_check
      { target := some (PyVal.list ["esp32", "esp32s2"]),
        ci_target := some (PyVal.list ["esp32"]), others := [] } =
      Except.ok
        { target := some (PyVal.list ["esp32", "esp32s2"]),
          ci_target := some (PyVal.list ["esp32"]), others := [] } :=
  (ci_target_check_subset_iff _ {"ESP32"} {"ESP32", "ESP32S2"}
    (by decide) (by decide)).2 (by decide)

/-- C4: when the target-specific candidate (scanned first) matches the
metric's definition pattern, `check_performance` behaves exactly as if
the later candidates did not exist — the generic file is never consulted
— and the record it enforces (the operator/threshold handed to
`_check_perf`) is the one extracted from the target-specific text. -/
theorem check_performance_target_precedence (item : String) (value : ℚ)
    (tgt : String) (op : Op) (num : String) (rest : List (Option String))
    (h : re_search_perf item tgt = some (op, num)) :
    check_performance item value (some tgt :: rest) =
      check_performance item value [some tgt] ∧
    (∀ std : ℚ, pyFloat num = some std →
      check_performance item value (some tgt :: rest) = check_perf item std std op) := by
  constructor
  · simp only [check_performance, h]
  · intro std hstd
    simp only [check_performance, h, hstd]

/-- Witness for C4 at a concrete input: metric TEST defined as MIN 5.0 in
the target-specific file and MIN 2.0 in the generic file; the outcome
equals that of scanning the target-specific file alone. -/
theorem check_performance_target_precedence_witness :
    check_performance "TEST" (0 : ℚ)
      [some "#define IDF_PERFORMANCE_MIN_TEST 5.0",
       some "#define IDF_PERFORMANCE_MIN_TEST 2.0"] =
      check_performance "TEST" (0 : ℚ) [some "#define IDF_PERFORMANCE_MIN_TEST 5.0"] :=
  (check_performance_target_precedence "TEST" 0 "#define IDF_PERFORMANCE_MIN_TEST 5.0"
    Op.MIN "5.0" [some "#define IDF_PERFORMANCE_MIN_TEST 2.0"] (by decide)).1

/-- C5: if no readable candidate's text matches the metric's definition
pattern (missing files and absent definitions alike), `check_performance`
returns normally regardless of the measured value. -/
theorem check_performance_no_match_ok (item : String) (value : ℚ)
    (files : List (Option String))
    (h : ∀ data : String, some data ∈ files → re_search_perf item data = Option.none) :
    check_performance item value files = Except.ok () := by
  induction files with
  | nil => rfl
  | cons f rest ih =>
    cases f with
    | none =>
      simp only [check_performance]
      exact ih (fun data hd => h data (List.mem_cons_of_mem _ hd))
    | some data =>
      simp only [check_performance, h data (List.mem_cons_self _ _)]
      exact ih (fun d hd => h d (List.mem_cons_of_mem _ hd))

/-- Witness for C5 at a concrete input: the target-specific file is
unreadable and the generic file defines only a different metric, so the
check passes for any measured value. -/
theorem check_performance_no_match_ok_witness :
    check_performance "TEST" (3.14 : ℚ)
      [Option.none, some "#define IDF_PERFORMANCE_MAX_OTHER 1.0"] = Except.ok () :=
  check_performance_no_match_ok "TEST" (3.14 : ℚ)
    [Option.none, some "#define IDF_PERFORMANCE_MAX_OTHER 1.0"]
    (by intro data hd; simp at hd; subst hd; decide)

/-- C6: the list normalizer returns `None` and empty inputs unchanged,
uppercases a single string, and maps uppercasing over a collection,
preserving order and element count. -/
theorem upper_list_spec :
    upper_list PyVal.none = PyVal.none ∧
    upper_list (PyVal.str "") = PyVal.str "" ∧
    upper_list (PyVal.list []) = PyVal.list [] ∧
    (∀ s : String, upper_list (PyVal.str s) = PyVal.str (pyUpper s)) ∧
    (∀ l : List String, upper_list (PyVal.list l) = PyVal.list (l.map pyUpper)) ∧
    (∀ l : List String, (l.map pyUpper).length = l.length) ∧
    upper_list (PyVal.str "esp32") = PyVal.str "ESP32" ∧
    upper_list (PyVal.list ["esp32", "esp32s2"]) = PyVal.list ["ESP32", "ESP32S2"] :=
  ⟨rfl, rfl, rfl, upper_list_str, upper_list_list,
    fun l => List.length_map l pyUpper, by decide, by decide⟩

/-- C7 counterexample: decorating with the lowercase target token
"esp32" stores ID "esp32.test_example", not the claimed
`format_case_id` of the uppercased target ("ESP32.test_example"). -/
theorem case_id_keeps_lowercase_target :
    idf_example_test
      { target := some (PyVal.str "esp32"), ci_target := Option.none, others := [] }
      "test_example" =
      Except.ok { name := "test_example", id := some "esp32.test_example" } ∧
    some "esp32.test_example" ≠
      some (format_case_id (upper_list (PyVal.str "esp32")) "test_example") :=
  ⟨rfl, by decide⟩

/-- C7 as amended: each of the three registration decorators stamps the
"ID" entry with `format_case_id` applied to the `target` parameter
exactly as originally passed (default "ESP32"), without normalizing it
to uppercase. -/
theorem case_id_uses_original_target (kw : Kwargs) (case_name : String) (info : CaseInfo) :
    (idf_example_test kw case_name = Except.ok info →
      info.id = some (format_case_id (kw.target.getD (PyVal.str "ESP32")) case_name)) ∧
    (idf_unit_test kw case_name = Except.ok info →
      info.id = some (format_case_id (kw.target.getD (PyVal.str "ESP32")) case_name)) ∧
    (idf_custom_test kw case_name = Except.ok info →
      info.id = some (format_case_id (kw.target.getD (PyVal.str "ESP32")) case_name)) := by
  refine ⟨?_, ?_, ?_⟩ <;>
  · intro h
    simp only [idf_example_test, idf_unit_test, idf_custom_test] at h
    split at h
    · exact absurd h (by simp)
    · next kw2 heq =>
      rw [ci_target_check_ok kw kw2 heq] at h
      injection h with h'
      rw [← h']
      rfl

/-- Witness for C7's amended theorem at a concrete input. -/
theorem case_id_uses_original_target_witness :
    ({ name := "test_example", id := some "esp32.test_example" } : CaseInfo).id =
      some (format_case_id (PyVal.str "esp32") "test_example") :=
  (case_id_uses_original_target
    { target := some (PyVal.str "esp32"), ci_target := Option.none, others := [] }
    "test_example" { name := "test_example", id := some "esp32.test_example" }).1 rfl

/-- C8: the case-identifier formatter joins the target chip token and the
case name with a period, taking the token as-is. -/
theorem format_case_id_spec :
    (∀ t c : String, format_case_id (PyVal.str t) c = t ++ "." ++ c) ∧
    format_case_id (PyVal.str "ESP32") "test_foo" = "ESP32.test_foo" :=
  ⟨fun _ _ => rfl, by decide⟩

/-- C9: binding `ci_target` explicitly to `None` makes the validator
raise `TypeError` (`set(None)` is not iterable) for every target input,
while omitting the keyword entirely is treated as the empty collection
and passes the subset check whenever the target side can be made into a
set, forwarding the kwargs unchanged. -/
theorem ci_target_none_vs_omitted :
    (∀ (t : Option PyVal) (others : List (String × PyVal)),
      ci_target_check { target := t, ci_target := some PyVal.none, others := others } =
        Except.error (PyErr.typeError "NoneType object is not iterable")) ∧
    (∀ (t : Option PyVal) (others : List (String × PyVal)) (ts : Finset String),
      pySet (upper_list (t.getD (PyVal.list []))) = Except.ok ts →
      ci_target_check { target := t, ci_target := Option.none, others := others } =
        Except.ok { target := t, ci_target := Option.none, others := others }) := by
  constructor
  · intro t others
    rfl
  · intro t others ts h
    rw [ci_target_check_eq]
    show (match pySet (upper_list (PyVal.list [])) with
      | Except.error e => Except.error (α := Kwargs) e
      | Except.ok cs =>
        match pySet (upper_list (t.getD (PyVal.list []))) with
        | Except.error e => Except.error e
        | Except.ok ts =>
          if ¬ cs ⊆ ts then
            Except.error (PyErr.valueError "ci_target must be a subset of target")
          else Except.ok { target := t, ci_target := Option.none, others := others }) = _
    rw [show pySet (upper_list (PyVal.list [])) = Except.ok (∅ : Finset String) from rfl, h]
    simp

/-- Witness for C9 at concrete inputs: explicit `None` raises, omission
passes. -/
theorem ci_target_none_vs_omitted_witness :
    ci_target_check
      { target := some (PyVal.list ["esp32"]), ci_target := some PyVal.none, others := [] } =
      Except.error (PyErr.typeError "NoneType object is not iterable") ∧
    ci_target_check
      { target := some (PyVal.list ["esp32"]), ci_target := Option.none, others := [] } =
      Except.ok
        { target := some (PyVal.list ["esp32"]), ci_target := Option.none, others := [] } :=
  ⟨ci_target_none_vs_omitted.1 (some (PyVal.list ["esp32"])) [],
    ci_target_none_vs_omitted.2 (some (PyVal.list ["esp32"])) [] {"ESP32"} (by decide)⟩

/-- C10: the list normalizer is idempotent on every embedded value. -/
theorem upper_list_idempotent (x : PyVal) : upper_list (upper_list x) = upper_list x := by
  cases x with
  | none => rfl
  | str s => rw [upper_list_str, upper_list_str, pyUpper_idem]
  | list l => rw [upper_list_list, upper_list_list, map_pyUpper_idem]

end TtfwIdf
